import Mathlib

/-!
Verification of the Containerized-ML-Anomaly-Detector repository.

The repository has two source files:
* `anomaly_model.py` — an offline trainer that builds a synthetic
  two-feature dataset, fits an IsolationForest and serializes it.
* `detection_service.py` — a FastAPI server that loads the artifact at
  startup and exposes `POST /predict` and `GET /health`.

Shallow embedding conventions:
* Feature values (Python floats) are embedded as `ℚ`.
* The fitted model held by the server is opaque in the source (a
  deserialized scikit-learn object); it is embedded as a function from
  the inference input to `Except String Int`: the composite expression
  `model.predict(input_data)[0]` either yields an integer score or
  raises an exception carrying a message string.
* `raise HTTPException(status_code, detail)` becomes the `httpError`
  constructor; a normal `return {...}` becomes the `ok` constructor.
* `print` calls inside the request handler are collected as a log list
  by `predict_anomalyFull`; `predict_anomaly` projects the response.
-/

namespace AnomalyDetector

/-- The opaque in-memory model of `detection_service.py`: evaluating
`model.predict(np.array(data).reshape(1, -1))[0]` on the request data
either returns the first predicted score or raises an exception whose
message is the carried string. -/
def Model : Type := List ℚ → Except String Int

/-- Fixed artifact path shared by both source files (`MODEL_PATH`). -/
def MODEL_PATH : String := "anomaly_detector.pkl"

/-- Title passed to `FastAPI(title=...)` in `detection_service.py`;
`health_check` echoes it as the `service` field. -/
def app_title : String := "Containerized Anomaly Detection API"

/-- Process-wide server state: the single global `model` reference,
`None` when loading the artifact failed at startup. -/
structure ServerState where
  model : Option Model

/-- Outcome of `joblib.load(MODEL_PATH)` at startup: success, a
`FileNotFoundError`, or any other exception (with its message). -/
inductive LoadResult where
  | ok (m : Model)
  | fileNotFound
  | otherError (e : String)

/-- Startup of `detection_service.py`, lines 8-19: `model = None`, then
`try: model = joblib.load(MODEL_PATH)` with handlers for
`FileNotFoundError` and `Exception` that only print; the printed lines
are collected in the second component. The function is total, so
startup always completes with a state. -/
def serverStartupFull : LoadResult → ServerState × List String
  | .ok m => (⟨some m⟩, ["Successfully loaded model from " ++ MODEL_PATH])
  | .fileNotFound =>
    (⟨none⟩, ["ERROR: Model file \x27" ++ MODEL_PATH ++
      "\x27 not found. Prediction service will be non-functional."])
  | .otherError e => (⟨none⟩, ["ERROR: Failed to load model artifact due to: " ++ e])

/-- The server state produced by startup. -/
def serverStartup (r : LoadResult) : ServerState := (serverStartupFull r).1

/-- Request body schema (`PredictionRequest`): `data` is the list of
features; the Pydantic length constraint is checked by `validateBody`
before the handler runs. -/
structure PredictionRequest where
  data : List ℚ

/-- Response of the `/predict` endpoint: `ok` is the 200 JSON body
`{status, prediction_score, input_data, message}`; `httpError` is a
raised `HTTPException(code, detail)`; `validationError` is the
framework-generated client-error rejection (code 422) produced by
Pydantic before the handler runs (its body is framework text and is
not modelled). -/
inductive Response where
  | ok (status : String) (prediction_score : Int) (input_data : List ℚ) (message : String)
  | httpError (code : Nat) (detail : String)
  | validationError (code : Nat)
deriving DecidableEq

/-- Detail string of the 503 raised by `predict_anomaly` when the model
is missing. -/
def SERVICE_UNAVAILABLE_DETAIL : String := "Model artifact not loaded. Service unavailable."

/-- Detail string of the generic 500 raised on an inference exception. -/
def INTERNAL_ERROR_DETAIL : String := "Internal processing error during prediction."

/-- Message field of a successful prediction response. -/
def PREDICT_MESSAGE : String := "Prediction successful. Score of -1 indicates an anomaly."

/-- Line 57 of `detection_service.py`: map the prediction result to a
human-readable status, `-1` to "Anomaly Detected" and anything else to
"Normal Traffic". -/
def statusLabel (prediction : Int) : String :=
  if prediction = -1 then "Anomaly Detected" else "Normal Traffic"

/-- The handler `predict_anomaly` of `detection_service.py` (lines
40-67), with the lines printed by the handler collected in the second
component: if `model is None` raise 503; otherwise run the try block:
compute the score, map it with `statusLabel` and return the 200 body
echoing `request.data`; on an exception print the internal message and
raise the generic 500. -/
def predict_anomalyFull (st : ServerState) (request : PredictionRequest) : Response × List String :=
  match st.model with
  | none => (.httpError 503 SERVICE_UNAVAILABLE_DETAIL, [])
  | some m =>
    match m request.data with
    | .ok prediction =>
      (.ok (statusLabel prediction) prediction request.data PREDICT_MESSAGE, [])
    | .error e =>
      (.httpError 500 INTERNAL_ERROR_DETAIL,
        ["Prediction failed due to internal error: " ++ e])

/-- The response of the `predict_anomaly` handler. -/
def predict_anomaly (st : ServerState) (request : PredictionRequest) : Response :=
  (predict_anomalyFull st request).1

/-- Pydantic validation of the request body: `data: List[float] =
Field(..., min_length=2, max_length=2)` accepts exactly the bodies of
length 2. -/
def validateBody (body : List ℚ) : Option PredictionRequest :=
  if 2 ≤ body.length ∧ body.length ≤ 2 then some ⟨body⟩ else none

/-- The `/predict` endpoint as seen by a client: Pydantic validates the
body first and rejects non-conforming bodies with a 422 client error
before `predict_anomaly` runs. -/
def servicePredict (st : ServerState) (body : List ℚ) : Response :=
  match validateBody body with
  | none => .validationError 422
  | some request => predict_anomaly st request

/-- Response of the `/health` endpoint: the 200 JSON body
`{status, service, model_loaded, message}` or a raised
`HTTPException(code, detail)`. -/
inductive HealthResponse where
  | ok (status : String) (service : String) (model_loaded : Bool) (message : String)
  | httpError (code : Nat) (detail : String)
deriving DecidableEq

/-- Detail string of the 503 raised by `health_check`. -/
def HEALTH_UNAVAILABLE_DETAIL : String := "Service is running, but the ML model failed to load."

/-- The handler `health_check` of `detection_service.py` (lines 71-88):
compute `model_loaded_status = model is not None`; if it is false raise
503, otherwise return the OK body with the service title and the
status. -/
def health_check (st : ServerState) : HealthResponse :=
  let model_loaded_status := st.model.isSome
  if !model_loaded_status then
    .httpError 503 HEALTH_UNAVAILABLE_DETAIL
  else
    .ok "OK" app_title model_loaded_status "Service is running and ML model is operational."

/-- Whether a health response reports `model_loaded: true` to the
caller (a raised 503 carries no `model_loaded` field). -/
def HealthResponse.reportsLoaded : HealthResponse → Bool
  | .ok _ _ b _ => b
  | .httpError _ _ => false

/-!
Trainer (`anomaly_model.py`). The raw random draws are library output
(`rng.randn`, `rng.uniform` from numpy with seed 42), so they enter the
embedding as parameters: `g` stands for the rows of `rng.randn(1000, 2)`
(standard Gaussian draws) and `u` for the rows of
`rng.uniform(low=-6, high=6, size=(20, 2))`. Everything the script does
with the draws is embedded exactly.
-/

/-- Lines 11-13 of `anomaly_model.py`:
`X_normal = 0.3 * rng.randn(1000, 2)` followed by
`X_normal = np.r_[X_normal + 2, X_normal - 2]` — the same scaled noise
rows shifted by +2 and by -2 in both coordinates, concatenated. -/
def X_normal (g : List (ℚ × ℚ)) : List (ℚ × ℚ) :=
  let scaled := g.map (fun p => (0.3 * p.1, 0.3 * p.2))
  scaled.map (fun p => (p.1 + 2, p.2 + 2)) ++ scaled.map (fun p => (p.1 - 2, p.2 - 2))

/-- Line 19 of `anomaly_model.py`:
`X_data = np.r_[X_normal, X_abnormal]` — the clustered rows followed by
the scattered rows. -/
def X_data (g u : List (ℚ × ℚ)) : List (ℚ × ℚ) := X_normal g ++ u

/-- The fitted estimator
`IsolationForest(contamination=0.02, random_state=42).fit(X_data)` is
an opaque scikit-learn object; the embedding records the constructor
arguments and the training set passed to `fit`. -/
structure IsolationForestFit where
  contamination : ℚ
  random_state : ℕ
  trainingData : List (ℚ × ℚ)

/-- Lines 27-28 of `anomaly_model.py`: construct the estimator with
`contamination=0.02, random_state=42` and fit it on exactly `X_data`. -/
def trainerModel (g u : List (ℚ × ℚ)) : IsolationForestFit :=
  { contamination := 0.02, random_state := 42, trainingData := X_data g u }

/-- Concrete stand-in for 1000 Gaussian draws, used to instantiate the
trainer theorem. -/
def gProbe : List (ℚ × ℚ) := List.replicate 1000 (0, 0)

/-- Concrete stand-in for 20 uniform draws, used to instantiate the
trainer theorem. -/
def uProbe : List (ℚ × ℚ) := List.replicate 20 (0, 0)

/-- Concrete model that classifies every input as 1 (normal). -/
def modelOne : Model := fun _ => Except.ok 1

/-- Concrete model that returns the out-of-contract score 0. -/
def modelZero : Model := fun _ => Except.ok 0

/-- Concrete model whose prediction raises an exception. -/
def modelErr : Model := fun _ => Except.error "boom"

/-- C1: for a request with two real-valued features and a loaded model
whose classification yields the score 1 or -1 (the IsolationForest
contract), `predict_anomaly` returns the 200 success body whose
`prediction_score` is that score, whose status label matches it
(`-1` to "Anomaly Detected", `1` to "Normal Traffic"), and whose
`input_data` echoes the request data unchanged. -/
theorem predict_success_shape (st : ServerState) (m : Model) (request : PredictionRequest)
    (p : Int) (_hlen : request.data.length = 2) (hm : st.model = some m)
    (hp : m request.data = Except.ok p) (hpv : p = 1 ∨ p = -1) :
    predict_anomaly st request =
      Response.ok (statusLabel p) p request.data PREDICT_MESSAGE ∧
    ((p = -1 ∧ statusLabel p = "Anomaly Detected") ∨
     (p = 1 ∧ statusLabel p = "Normal Traffic")) := by
  constructor
  · simp [predict_anomaly, predict_anomalyFull, hm, hp]
  · rcases hpv with h | h
    · exact Or.inr ⟨h, by simp [statusLabel, h]⟩
    · exact Or.inl ⟨h, by simp [statusLabel, h]⟩

/-- Witness for C1 at the concrete model `modelOne` and the request
`[2.1, 2.1]` (written as rationals). -/
theorem predict_success_shape_witness :
    predict_anomaly ⟨some modelOne⟩ ⟨[21 / 10, 21 / 10]⟩ =
      Response.ok (statusLabel 1) 1 [21 / 10, 21 / 10] PREDICT_MESSAGE ∧
    (((1 : Int) = -1 ∧ statusLabel 1 = "Anomaly Detected") ∨
     ((1 : Int) = 1 ∧ statusLabel 1 = "Normal Traffic")) :=
  predict_success_shape ⟨some modelOne⟩ modelOne ⟨[21 / 10, 21 / 10]⟩ 1
    (by simp) rfl rfl (Or.inl rfl)

/-- C2 counterexample: with a loaded model whose classification returns
the out-of-contract value 0, the handler does not signal an internal
error; it returns the 200 body with the "Normal Traffic" label and
score 0. -/
theorem predict_out_of_contract_counterexample :
    predict_anomaly ⟨some modelZero⟩ ⟨[1, 2]⟩ =
      Response.ok "Normal Traffic" 0 [1, 2] PREDICT_MESSAGE := by
  simp [predict_anomaly, predict_anomalyFull, modelZero, statusLabel]

/-- C2 amended: when a loaded model returns any classification value
other than -1 (so in particular any value that is neither 1 nor -1),
the handler labels the response "Normal Traffic" and reports that value as
the score; only an exception during inference yields the generic
internal error. -/
theorem predict_out_of_contract_normal (st : ServerState) (m : Model)
    (request : PredictionRequest) (p : Int) (hm : st.model = some m)
    (hp : m request.data = Except.ok p) (hne : p ≠ -1) :
    predict_anomaly st request =
      Response.ok "Normal Traffic" p request.data PREDICT_MESSAGE := by
  simp [predict_anomaly, predict_anomalyFull, hm, hp, statusLabel, hne]

/-- Witness for the amended C2 at the concrete model `modelZero`. -/
theorem predict_out_of_contract_normal_witness :
    predict_anomaly ⟨some modelZero⟩ ⟨[1, 2]⟩ =
      Response.ok "Normal Traffic" 0 [1, 2] PREDICT_MESSAGE :=
  predict_out_of_contract_normal ⟨some modelZero⟩ modelZero ⟨[1, 2]⟩ 0
    rfl rfl (by decide)

/-- C3: a body whose length is not 2 is rejected by the Pydantic schema
with the 422 client error, and the result is the same for every server
state (in particular for any loaded model), so the model is never
invoked. -/
theorem invalid_length_rejected (st st2 : ServerState) (body : List ℚ)
    (h : body.length ≠ 2) :
    servicePredict st body = Response.validationError 422 ∧
    servicePredict st2 body = servicePredict st body := by
  have hv : validateBody body = none := by
    simp only [validateBody, ite_eq_right_iff]
    intro hc
    exact absurd (Nat.le_antisymm hc.2 hc.1) h
  constructor
  · simp [servicePredict, hv]
  · simp [servicePredict, hv]

/-- Witness for C3 at the one-element body `[1.0]`, compared across the
empty state and a state holding `modelOne`. -/
theorem invalid_length_rejected_witness :
    servicePredict ⟨none⟩ [1] = Response.validationError 422 ∧
    servicePredict ⟨some modelOne⟩ [1] = servicePredict ⟨none⟩ [1] :=
  invalid_length_rejected ⟨none⟩ ⟨some modelOne⟩ [1] (by decide)

/-- C4: when no model is loaded, `health_check` raises 503, and for
every valid two-feature body the `/predict` endpoint raises the 503
service-unavailable error before the try block, so the model is never
invoked (the handler logs nothing). -/
theorem model_absent_503 (st : ServerState) (body : List ℚ)
    (hm : st.model = none) (hb : body.length = 2) :
    health_check st = HealthResponse.httpError 503 HEALTH_UNAVAILABLE_DETAIL ∧
    servicePredict st body = Response.httpError 503 SERVICE_UNAVAILABLE_DETAIL ∧
    predict_anomalyFull st ⟨body⟩ =
      (Response.httpError 503 SERVICE_UNAVAILABLE_DETAIL, []) := by
  refine ⟨?_, ?_, ?_⟩
  · simp [health_check, hm]
  · simp [servicePredict, validateBody, hb, predict_anomaly, predict_anomalyFull, hm]
  · simp [predict_anomalyFull, hm]

/-- Witness for C4 at the empty state and the body `[1.0, 2.0]`. -/
theorem model_absent_503_witness :
    health_check ⟨none⟩ = HealthResponse.httpError 503 HEALTH_UNAVAILABLE_DETAIL ∧
    servicePredict ⟨none⟩ [1, 2] = Response.httpError 503 SERVICE_UNAVAILABLE_DETAIL ∧
    predict_anomalyFull ⟨none⟩ ⟨[1, 2]⟩ =
      (Response.httpError 503 SERVICE_UNAVAILABLE_DETAIL, []) :=
  model_absent_503 ⟨none⟩ [1, 2] rfl (by decide)

/-- C5: in every server state, `health_check` reports
`model_loaded: true` exactly when a `predict_anomaly` call in that same
state would not short-circuit with the 503 service-unavailable error. -/
theorem health_iff_no_short_circuit (st : ServerState) (request : PredictionRequest) :
    (health_check st).reportsLoaded = true ↔
      predict_anomaly st request ≠ Response.httpError 503 SERVICE_UNAVAILABLE_DETAIL := by
  cases hst : st.model with
  | none =>
    simp [health_check, hst, HealthResponse.reportsLoaded,
      predict_anomaly, predict_anomalyFull]
  | some m =>
    simp only [health_check, hst, Option.isSome_some, Bool.not_true, Bool.false_eq_true,
      if_false, HealthResponse.reportsLoaded, true_iff]
    cases hp : m request.data with
    | ok p => simp [predict_anomaly, predict_anomalyFull, hst, hp]
    | error e => simp [predict_anomaly, predict_anomalyFull, hst, hp,
        SERVICE_UNAVAILABLE_DETAIL, INTERNAL_ERROR_DETAIL]

/-- Witness for C5: in the state holding `modelOne` the health check
reports the model as loaded, hence predict does not short-circuit. -/
theorem health_iff_no_short_circuit_witness :
    predict_anomaly ⟨some modelOne⟩ ⟨[0, 0]⟩ ≠
      Response.httpError 503 SERVICE_UNAVAILABLE_DETAIL :=
  (health_iff_no_short_circuit ⟨some modelOne⟩ ⟨[0, 0]⟩).mp rfl

/-- C6: any exception raised by the inference expression inside the try
block is caught: the handler logs the internal message (which carries
the exception text) and raises the generic 500 whose detail is the
fixed literal, independent of the exception contents. -/
theorem inference_exception_generic_500 (st : ServerState) (m : Model)
    (request : PredictionRequest) (e : String) (hm : st.model = some m)
    (he : m request.data = Except.error e) :
    predict_anomalyFull st request =
      (Response.httpError 500 INTERNAL_ERROR_DETAIL,
        ["Prediction failed due to internal error: " ++ e]) ∧
    INTERNAL_ERROR_DETAIL = "Internal processing error during prediction." := by
  constructor
  · simp [predict_anomalyFull, hm, he]
  · rfl

/-- Witness for C6 at the concrete throwing model `modelErr`. -/
theorem inference_exception_generic_500_witness :
    predict_anomalyFull ⟨some modelErr⟩ ⟨[1, 2]⟩ =
      (Response.httpError 500 INTERNAL_ERROR_DETAIL,
        ["Prediction failed due to internal error: " ++ "boom"]) ∧
    INTERNAL_ERROR_DETAIL = "Internal processing error during prediction." :=
  inference_exception_generic_500 ⟨some modelErr⟩ modelErr ⟨[1, 2]⟩ "boom" rfl rfl

/-- C7: startup is a total function into a server state, so the process
always comes up; on a missing artifact or any other deserialization
error the failure is logged (the log is nonempty) and the model
reference is left unset, while a successful load sets it. -/
theorem startup_failure_nonfatal (e : String) (m : Model) :
    (serverStartup LoadResult.fileNotFound).model = none ∧
    (serverStartup (LoadResult.otherError e)).model = none ∧
    (serverStartupFull LoadResult.fileNotFound).2 ≠ [] ∧
    (serverStartupFull (LoadResult.otherError e)).2 ≠ [] ∧
    (serverStartup (LoadResult.ok m)).model = some m := by
  refine ⟨rfl, rfl, ?_, ?_, rfl⟩
  · simp [serverStartupFull]
  · simp [serverStartupFull]

/-- C10: the model-availability check precedes the try block, so with no
model loaded every request yields the 503 response and never the
generic 500; conversely a 500 response is only reachable when some
model is loaded. -/
theorem unavailable_before_internal (st : ServerState) (request : PredictionRequest)
    (d : String) :
    (st.model = none →
      predict_anomaly st request = Response.httpError 503 SERVICE_UNAVAILABLE_DETAIL ∧
      predict_anomaly st request ≠ Response.httpError 500 d) ∧
    (predict_anomaly st request = Response.httpError 500 d → st.model ≠ none) := by
  constructor
  · intro hm
    constructor
    · simp [predict_anomaly, predict_anomalyFull, hm]
    · simp [predict_anomaly, predict_anomalyFull, hm]
  · intro h500 hm
    rw [(by simp [predict_anomaly, predict_anomalyFull, hm] :
      predict_anomaly st request = Response.httpError 503 SERVICE_UNAVAILABLE_DETAIL)] at h500
    simp at h500

/-- Witness for C10 at the empty state and the body `[1.0, 2.0]`. -/
theorem unavailable_before_internal_witness :
    predict_anomaly ⟨none⟩ ⟨[1, 2]⟩ = Response.httpError 503 SERVICE_UNAVAILABLE_DETAIL ∧
    predict_anomaly ⟨none⟩ ⟨[1, 2]⟩ ≠ Response.httpError 500 INTERNAL_ERROR_DETAIL :=
  (unavailable_before_internal ⟨none⟩ ⟨[1, 2]⟩ INTERNAL_ERROR_DETAIL).1 rfl

/-- C9: for Gaussian draws `g` (1000 rows) and uniform draws `u` (20
rows, each coordinate in the interval from -6 to 6), the training set is
exactly 2020 samples: first the 1000 cluster samples `0.3 * g + (2, 2)`,
then the 1000 cluster samples `0.3 * g + (-2, -2)`, then the 20
scattered samples `u`; the estimator is fitted on exactly this set with
contamination 0.02 and random seed 42. -/
theorem trainer_dataset (g u : List (ℚ × ℚ)) (hg : g.length = 1000) (hu : u.length = 20)
    (hur : ∀ p ∈ u, -6 ≤ p.1 ∧ p.1 ≤ 6 ∧ -6 ≤ p.2 ∧ p.2 ≤ 6) :
    (trainerModel g u).trainingData.length = 2020 ∧
    (trainerModel g u).trainingData.take 1000 =
      g.map (fun p => (0.3 * p.1 + 2, 0.3 * p.2 + 2)) ∧
    ((trainerModel g u).trainingData.drop 1000).take 1000 =
      g.map (fun p => (0.3 * p.1 - 2, 0.3 * p.2 - 2)) ∧
    (trainerModel g u).trainingData.drop 2000 = u ∧
    (∀ p ∈ (trainerModel g u).trainingData.drop 2000,
      -6 ≤ p.1 ∧ p.1 ≤ 6 ∧ -6 ≤ p.2 ∧ p.2 ≤ 6) ∧
    (trainerModel g u).contamination = 0.02 ∧
    (trainerModel g u).random_state = 42 := by
  have hdata : (trainerModel g u).trainingData =
      g.map (fun p => (0.3 * p.1 + 2, 0.3 * p.2 + 2)) ++
        (g.map (fun p => (0.3 * p.1 - 2, 0.3 * p.2 - 2)) ++ u) := by
    simp [trainerModel, X_data, X_normal, List.map_map, Function.comp_def]
  have h1 : (g.map (fun p : ℚ × ℚ => (0.3 * p.1 + 2, 0.3 * p.2 + 2))).length = 1000 := by
    simp [hg]
  have h2 : (g.map (fun p : ℚ × ℚ => (0.3 * p.1 - 2, 0.3 * p.2 - 2))).length = 1000 := by
    simp [hg]
  have h12 : (g.map (fun p : ℚ × ℚ => (0.3 * p.1 + 2, 0.3 * p.2 + 2)) ++
      g.map (fun p : ℚ × ℚ => (0.3 * p.1 - 2, 0.3 * p.2 - 2))).length = 2000 := by
    simp [hg]
  have hdrop : (trainerModel g u).trainingData.drop 2000 = u := by
    rw [hdata, ← List.append_assoc, List.drop_left' h12]
  refine ⟨?_, ?_, ?_, hdrop, ?_, rfl, rfl⟩
  · rw [hdata]; simp [hg, hu]
  · rw [hdata, List.take_left' h1]
  · rw [hdata, List.drop_left' h1, List.take_left' h2]
  · rw [hdrop]; exact hur

/-- Witness for C9 at the concrete draw lists `gProbe` and `uProbe`. -/
theorem trainer_dataset_witness :
    (trainerModel gProbe uProbe).trainingData.length = 2020 ∧
    (trainerModel gProbe uProbe).trainingData.drop 2000 = uProbe ∧
    (trainerModel gProbe uProbe).contamination = 0.02 ∧
    (trainerModel gProbe uProbe).random_state = 42 := by
  have h := trainer_dataset gProbe uProbe
    (by rw [gProbe]; exact List.length_replicate 1000 _)
    (by rw [uProbe]; exact List.length_replicate 20 _)
    (by
      intro p hp
      simp only [uProbe, List.mem_replicate] at hp
      rw [hp.2]
      norm_num)
  exact ⟨h.1, h.2.2.2.1, h.2.2.2.2.2.1, h.2.2.2.2.2.2⟩

end AnomalyDetector
